import Mathlib

/-!
# Verification of the ura-health-backend assessment-and-plan-generation engine

A shallow embedding, in Lean 4, of the core logic of the `health_survey.survey`
Django application: the question catalog and answer validator
(`survey/questions.py`), the severity classifier (`survey/utils/assessment.py`),
the deterministic meal-catalog and plan generators (`survey/utils/ai.py`), and
the free-plan endpoint logic (`survey/views.py`, `SelectMealsView.post`).

Python values appearing in answer sets and JSON payloads are embedded as the
inductive type `Value`; Python `dict`s keyed by strings are embedded as
association lists (first binding wins, matching `dict.get` on the unique-key
dictionaries the application builds).  Python floats are embedded as rationals
(`ℚ`); no claim verified here depends on binary floating-point rounding.
Fallible code paths (the undefined-name errors in `ai.py`) are embedded in the
`Except PyExc` monad.
-/

set_option linter.unusedVariables false

namespace HealthSurvey

/-- Embedding of the Python values that flow through answer sets and JSON
payloads: `None`, booleans, numbers (floats/ints as rationals), strings,
lists, and string-keyed dicts. -/
inductive Value where
  | null : Value
  | bool (b : Bool) : Value
  | num (q : ℚ) : Value
  | str (s : String) : Value
  | vlist (l : List Value) : Value
  | vdict (d : List (String × Value)) : Value

/-- An answer set: Python `dict` from question label to raw value,
embedded as an association list in insertion order. -/
abbrev Answers := List (String × Value)

/-- Python truthiness (`bool(v)`): `None`, `False`, `0`, `""`, `[]`, `{}`
are falsy, everything else truthy. -/
def pyTruthy : Value → Bool
  | .null => false
  | .bool b => b
  | .num q => q != 0
  | .str s => s ≠ ""
  | .vlist l => !l.isEmpty
  | .vdict d => !d.isEmpty

/-- `d.get(k)` on a Python dict: the value stored at `k`, or `None` when the
key is absent.  A stored `None` and a missing key are indistinguishable to
`.get`, so both collapse to `Value.null`. -/
def pyGet (d : List (String × Value)) (k : String) : Value :=
  match d.find? (fun p => p.1 = k) with
  | some p => p.2
  | none => .null

/-- `k in d` on a Python dict. -/
def pyHasKey (d : List (String × Value)) (k : String) : Bool :=
  d.any (fun p => p.1 = k)

/-- Substring test on character lists (Python `sub in s` for strings). -/
def containsSub (pat : List Char) (s : List Char) : Bool :=
  match s with
  | [] => pat.isPrefixOf []
  | _ :: rest => pat.isPrefixOf s || containsSub pat rest

/-- Python `sub in s` on `String`s. -/
def strContains (s sub : String) : Bool :=
  containsSub sub.data s.data

/-- `str.lower()` (ASCII case fold, which covers every string this
application manipulates). -/
def pyLower (s : String) : String :=
  String.mk (s.data.map Char.toLower)

/-- `str.strip()`: remove leading and trailing whitespace. -/
def trimChars (cs : List Char) : List Char :=
  ((cs.dropWhile Char.isWhitespace).reverse.dropWhile Char.isWhitespace).reverse

/-- `str.strip()` on `String`s. -/
def pyStrip (s : String) : String := String.mk (trimChars s.data)

/-- Digits of a character run as a natural number. -/
def digitsToNat (cs : List Char) : Nat :=
  cs.foldl (fun acc c => acc * 10 + (c.toNat - '0'.toNat)) 0

/-- Value of a decimal literal `intPart.fracPart`. -/
def decimalToRat (intPart fracPart : List Char) : ℚ :=
  mkRat (Int.ofNat (digitsToNat intPart * Nat.pow 10 fracPart.length + digitsToNat fracPart))
    (Nat.pow 10 fracPart.length)

/-- `float(s)` on a string, restricted to the plain decimal forms this
application feeds it (optional sign, digits, optional fraction, surrounding
whitespace).  Exotic accepted forms (`"inf"`, `"nan"`, exponents, underscore
separators) are embedded as parse failures; no verified claim feeds them. -/
def pyFloatOfString (s : String) : Option ℚ :=
  let cs := trimChars s.data
  let (neg, cs) :=
    match cs with
    | '-' :: rest => (true, rest)
    | '+' :: rest => (false, rest)
    | _ => (false, cs)
  let intPart := cs.takeWhile Char.isDigit
  let rest := cs.dropWhile Char.isDigit
  let mag :=
    match rest with
    | [] => if intPart.isEmpty then none else some (decimalToRat intPart [])
    | '.' :: rest' =>
      let fracPart := rest'.takeWhile Char.isDigit
      let rest'' := rest'.dropWhile Char.isDigit
      if rest''.isEmpty && !(intPart.isEmpty && fracPart.isEmpty) then
        some (decimalToRat intPart fracPart)
      else none
    | _ => none
  match mag with
  | some q => some (if neg then -q else q)
  | none => none

/-- Rendering used where the source interpolates a float into an f-string
(`str(float)`).  Exact for integral values (`200.0` style); non-integral and
non-string values get placeholder renderings, which only ever flow into
`reasoning` texts that no verified claim inspects. -/
def pyFloatRepr (q : ℚ) : String :=
  if q.den = 1 then toString q.num ++ ".0" else toString q.num ++ "/" ++ toString q.den

/-- `str(v)` for the places the source stringifies an arbitrary answer value.
Exact on strings, `None` and booleans; numeric, list and dict renderings are
abbreviated (they contain no `/` and never equal a label keyword, which is all
downstream code inspects). -/
def pyStr : Value → String
  | .null => "None"
  | .bool true => "True"
  | .bool false => "False"
  | .num q => pyFloatRepr q
  | .str s => s
  | .vlist _ => "<list>"
  | .vdict _ => "<dict>"

/-- `int(v)`: truncation for numbers, strict integer parse for strings,
`0/1` for booleans, `none` when Python would raise (`None`, lists, dicts,
non-integer strings). -/
def pyInt : Value → Option Int
  | .null => none
  | .bool b => some (if b then 1 else 0)
  | .num q => some (q.num.tdiv q.den)
  | .str s =>
    let cs := trimChars s.data
    let (sign, cs) :=
      match cs with
      | '-' :: rest => ((-1 : Int), rest)
      | '+' :: rest => ((1 : Int), rest)
      | _ => ((1 : Int), cs)
    if cs.isEmpty || !cs.all Char.isDigit then none
    else some (sign * (digitsToNat cs : Int))
  | .vlist _ => none
  | .vdict _ => none

/-! ## `survey/utils/assessment.py` — parsing helpers and severity classifiers -/

/-- One step of the regex `(\d{2,3})\s*/\s*(\d{2,3})` match attempt at the
start of `cs`, with the first (greedy, backtrackable) group fixed to `k1`
digits. -/
def bpMatchAt (cs : List Char) (k1 : Nat) : Option (Nat × Nat) :=
  let g1 := cs.take k1
  if g1.length = k1 && g1.all Char.isDigit then
    let rest := (cs.drop k1).dropWhile Char.isWhitespace
    match rest with
    | '/' :: rest' =>
      let ds2 := (rest'.dropWhile Char.isWhitespace).takeWhile Char.isDigit
      if ds2.length ≥ 3 then some (digitsToNat g1, digitsToNat (ds2.take 3))
      else if ds2.length = 2 then some (digitsToNat g1, digitsToNat ds2)
      else none
    | _ => none
  else none

/-- `re.search(r"(\d{2,3})\s*/\s*(\d{2,3})", s)`: leftmost match wins; at each
position the first group is greedy (3 digits, backtracking to 2). -/
def bpSearch : List Char → Option (Nat × Nat)
  | [] => none
  | c :: rest =>
    match bpMatchAt (c :: rest) 3 with
    | some r => some r
    | none =>
      match bpMatchAt (c :: rest) 2 with
      | some r => some r
      | none => bpSearch rest

/-- Match attempt of the regex `-?\d+(\.\d+)?` anchored at the start of `cs`
(greedy digit runs; the fractional group needs at least one digit). -/
def numMatchAt (cs : List Char) : Option ℚ :=
  let (neg, cs') := match cs with
    | '-' :: rest => (true, rest)
    | _ => (false, cs)
  let ds := cs'.takeWhile Char.isDigit
  if ds.isEmpty then none
  else
    let rest := cs'.dropWhile Char.isDigit
    let q := match rest with
      | '.' :: r2 =>
        let fs := r2.takeWhile Char.isDigit
        if fs.isEmpty then decimalToRat ds [] else decimalToRat ds fs
      | _ => decimalToRat ds []
    some (if neg then -q else q)

/-- `re.search(r"-?\d+(\.\d+)?", s)` followed by `float` of the match. -/
def findFirstNumber : List Char → Option ℚ
  | [] => none
  | c :: rest =>
    match numMatchAt (c :: rest) with
    | some q => some q
    | none => findFirstNumber rest

/-- `_to_number` from `assessment.py`: `None`/`""` give `None`; then
`float(text)`; on failure, the first `-?\d+(\.\d+)?` found in `str(text)`. -/
def _to_number (v : Value) : Option ℚ :=
  match v with
  | .null => none
  | .num q => some q
  | .bool b => some (if b then 1 else 0)
  | .str s =>
    if s = "" then none
    else
      match pyFloatOfString s with
      | some q => some q
      | none => findFirstNumber s.data
  | v => findFirstNumber (pyStr v).data

/-- `_parse_bp`: parse strings like `'130/85'`, `'140 / 95 mmHg'`. -/
def _parse_bp (v : Value) : Option ℚ × Option ℚ :=
  match v with
  | .null => (none, none)
  | v =>
    if pyStr v = "" then (none, none)
    else
      match bpSearch (pyStr v).data with
      | some (s, d) => (some (s : ℚ), some (d : ℚ))
      | none => (none, none)

/-- `_parse_hba1c` delegates to `_to_number`. -/
def _parse_hba1c (v : Value) : Option ℚ := _to_number v

/-- `_parse_fbs` delegates to `_to_number`. -/
def _parse_fbs (v : Value) : Option ℚ := _to_number v

/-- `round(x, 1)`.  Python rounds half-to-even; the embedding rounds half away
from zero, which differs only at exact `.x5` ties, exercised by no verified
claim. -/
def pyRound1 (q : ℚ) : ℚ := ((round (q * 10) : ℤ) : ℚ) / 10

/-- `_compute_bmi`. -/
def _compute_bmi (weight_kg height_cm : Option ℚ) : Option ℚ :=
  match weight_kg, height_cm with
  | some w, some h =>
    if h = 0 then none
    else
      let h_m := h / 100
      if h_m ≤ 0 then none else some (pyRound1 (w / (h_m * h_m)))
  | _, _ => none

/-- `_get_answer`: answers are keyed by exact question label. -/
def _get_answer (answers : Answers) (label : String) : Value :=
  pyGet answers label

/-- The result dict of the classifiers and of `assess_level`. -/
structure AssessmentRes where
  condition : String
  level : Int
  label : String
  metrics : List (String × Value)
  reasoning : String

/-- The fixed map `{1: "mild", 2: "moderate", 3: "severe"}`.  Python raises
`KeyError` for any other key; classifier code only ever looks up 1..3, so the
default branch is unreachable in embedded paths. -/
def levelLabelMap (l : Int) : String :=
  if l = 1 then "mild" else if l = 2 then "moderate"
  else if l = 3 then "severe" else "<KeyError>"

/-- `str(int(q))`: truncate toward zero, render as an integer. -/
def intRepr (q : ℚ) : String := toString (q.num.tdiv q.den)

/-- `Value` of an optional number (`None` when absent). -/
def optNum : Option ℚ → Value
  | some q => .num q
  | none => .null

/-- `_classify_diabetes` from `assessment.py`. -/
def _classify_diabetes (answers : Answers) : AssessmentRes :=
  let fbs := _parse_fbs (_get_answer answers "Last known blood sugar reading (Fasting):")
  let hba1c := _parse_hba1c (_get_answer answers "Last known HbA1c (if tested):")
  let sd := _parse_bp (_get_answer answers "Blood pressure (last reading, if known):")
  let sys := sd.1
  let dia := sd.2
  let level : Int := 1
  let reasons : List String := []
  let lr :=
    match fbs with
    | some v =>
      if v > 180 then
        (max level 3, reasons ++ ["FBS " ++ pyFloatRepr v ++ " mg/dL > 180 -> Level 3"])
      else if 126 ≤ v ∧ v ≤ 180 then
        (max level 2, reasons ++ ["FBS " ++ pyFloatRepr v ++ " mg/dL in 126–180 -> Level 2"])
      else if 100 ≤ v ∧ v ≤ 125 then
        (max level 1, reasons ++ ["FBS " ++ pyFloatRepr v ++ " mg/dL in 100–125 -> Level 1"])
      else (level, reasons)
    | none => (level, reasons)
  let lr :=
    match hba1c with
    | some v =>
      if v ≥ 8 then
        (max lr.1 3, lr.2 ++ ["HbA1c " ++ pyFloatRepr v ++ "% ≥ 8 -> Level 3"])
      else if (6.5 : ℚ) ≤ v ∧ v ≤ 7.9 then
        (max lr.1 2, lr.2 ++ ["HbA1c " ++ pyFloatRepr v ++ "% in 6.5–7.9 -> Level 2"])
      else if (5.7 : ℚ) ≤ v ∧ v ≤ 6.4 then
        (max lr.1 1, lr.2 ++ ["HbA1c " ++ pyFloatRepr v ++ "% in 5.7–6.4 -> Level 1"])
      else (lr.1, lr.2)
    | none => (lr.1, lr.2)
  let reasons :=
    match sys, dia with
    | some s, some d => lr.2 ++ ["BP reading noted: " ++ intRepr s ++ "/" ++ intRepr d ++ " mmHg"]
    | _, _ => lr.2
  -- metrics "bp" uses the truthiness test `if sys and dia` (a 0.0 reading would
  -- be falsy; parsed readings are 2–3 digit groups, hence ≥ 10)
  let bpMetric :=
    match sys, dia with
    | some s, some d =>
      if s ≠ 0 ∧ d ≠ 0 then Value.str (intRepr s ++ "/" ++ intRepr d) else Value.null
    | _, _ => Value.null
  { condition := "diabetes"
    level := lr.1
    label := levelLabelMap lr.1
    metrics := [("fbs_mg_dl", optNum fbs), ("hba1c_percent", optNum hba1c), ("bp", bpMetric)]
    reasoning :=
      if reasons.isEmpty then "Insufficient metrics; defaulted to Level 1 (mild)."
      else String.intercalate "; " reasons }

/-- `_classify_hbp` from `assessment.py`. -/
def _classify_hbp (answers : Answers) : AssessmentRes :=
  let bp := _get_answer answers "Current Blood Pressure Reading:"
  let sd := _parse_bp bp
  match sd.1, sd.2 with
  | some s, some d =>
    let bpTxt := intRepr s ++ "/" ++ intRepr d
    let lr : Int × List String :=
      if s ≥ 160 ∨ d ≥ 100 then
        (3, ["BP " ++ bpTxt ++ " ≥ 160/100 -> Level 3"])
      else if (140 ≤ s ∧ s ≤ 159) ∨ (90 ≤ d ∧ d ≤ 99) then
        (2, ["BP " ++ bpTxt ++ " in 140–159/90–99 -> Level 2"])
      else if (130 ≤ s ∧ s ≤ 139) ∨ (80 ≤ d ∧ d ≤ 89) then
        (1, ["BP " ++ bpTxt ++ " in 130–139/80–89 -> Level 1"])
      else
        (1, ["BP " ++ bpTxt ++ " below 130/80; classify as Level 1 if symptomatic/history."])
    { condition := "hbp"
      level := lr.1
      label := levelLabelMap lr.1
      metrics := [("bp", Value.str bpTxt)]
      reasoning := String.intercalate "; " lr.2 }
  | _, _ =>
    { condition := "hbp"
      level := 1
      label := "mild"
      metrics := [("bp", Value.null)]
      reasoning := "No BP reading provided; defaulted to Level 1 if history suggests prehypertension." }

/-- `_classify_weight` from `assessment.py`. -/
def _classify_weight (answers : Answers) : AssessmentRes :=
  let bmi0 := _to_number (_get_answer answers "Body Mass Index (BMI):")
  let bmi :=
    match bmi0 with
    | none =>
      _compute_bmi (_to_number (_get_answer answers "Current Weight (kg):"))
        (_to_number (_get_answer answers "Height (cm):"))
    | some b => some b
  let lr : Int × List String :=
    match bmi with
    | some b =>
      if b ≥ 40 then (3, ["BMI " ++ pyFloatRepr b ++ " ≥ 40 -> Level 3"])
      else if 30 ≤ b ∧ b ≤ (39.9 : ℚ) then (2, ["BMI " ++ pyFloatRepr b ++ " in 30–39.9 -> Level 2"])
      else if 25 ≤ b ∧ b ≤ (29.9 : ℚ) then (1, ["BMI " ++ pyFloatRepr b ++ " in 25–29.9 -> Level 1"])
      else (1, ["BMI " ++ pyFloatRepr b ++ " below 25; default to Level 1 if weight concerns persist."])
    | none => (1, ["Insufficient data to compute BMI; defaulted to Level 1."])
  { condition := "weight"
    level := lr.1
    label := levelLabelMap lr.1
    metrics := [("bmi", optNum bmi)]
    reasoning := String.intercalate "; " lr.2 }

/-- `_deterministic_assessment`: category dispatch (case-insensitive, with
aliases) to the rule-based classifiers; anything else gets the detox result. -/
def _deterministic_assessment (category : String) (answers : Answers) : AssessmentRes :=
  let cat := pyLower category
  if cat = "diabetes" then _classify_diabetes answers
  else if cat = "hbp" ∨ cat = "high blood pressure" ∨ cat = "hypertension" then
    _classify_hbp answers
  else if cat = "weight" ∨ cat = "weight management" ∨ cat = "obesity" then
    _classify_weight answers
  else
    { condition := "detox"
      level := 1
      label := "mild"
      metrics := []
      reasoning := "Detox category: default single-tier guidance." }

/-- `assess_level` from `assessment.py`.  The advisory call `_prompt_json`
is the external AI collaborator; its JSON reply (`{}` when the call fails or
returns malformed output) is passed in as `ai_out`.  The prompt strings built
by the source do not influence control flow and are omitted. -/
def assess_level (ai_out : List (String × Value)) (category : String) (answers : Answers) :
    AssessmentRes :=
  if pyHasKey ai_out "level" ∧ pyTruthy (pyGet ai_out "condition") then
    match pyInt (pyGet ai_out "level") with
    | none => _deterministic_assessment category answers  -- int() raised; swallowed by `except`
    | some lvl =>
      if lvl = 1 ∨ lvl = 2 ∨ lvl = 3 then
        let lblRaw :=
          pyStrip (pyLower (pyStr (if pyTruthy (pyGet ai_out "label") then pyGet ai_out "label"
                                   else .str "")))
        let lbl :=
          if lblRaw = "mild" ∨ lblRaw = "moderate" ∨ lblRaw = "severe" then lblRaw
          else levelLabelMap lvl
        let metrics :=
          match pyGet ai_out "metrics" with
          | .vdict d => d
          | _ => []
        let reasoning :=
          pyStr (if pyTruthy (pyGet ai_out "reasoning") then pyGet ai_out "reasoning"
                 else .str "")
        { condition := pyLower (pyStr (pyGet ai_out "condition"))
          level := lvl
          label := lbl
          metrics := metrics
          reasoning := reasoning }
      else _deterministic_assessment category answers
  else _deterministic_assessment category answers

/-! ## `survey/questions.py` — question catalogs and answer validation -/

/-- A catalog question: id, label, type tag, options (for choice/multiselect),
and the optional `required_when: {"questionId": ..., "values": [...]}` clause. -/
structure Question where
  id : Nat
  question : String
  type : String
  options : List String
  required_when : Option (Nat × List String)

/-- Question with neither options nor a conditional-requirement clause. -/
def q0 (id : Nat) (label ty : String) : Question := ⟨id, label, ty, [], none⟩

/-- Question with options. -/
def qOpt (id : Nat) (label ty : String) (options : List String) : Question :=
  ⟨id, label, ty, options, none⟩

/-- Question with a `required_when` clause. -/
def qReq (id : Nat) (label ty : String) (refId : Nat) (vals : List String) : Question :=
  ⟨id, label, ty, [], some (refId, vals)⟩

def DIABETES_QUESTIONS : List Question := [
  q0 1 "Full Name:" "text",
  q0 2 "Age:" "number",
  qOpt 3 "Sex:" "choice" ["Male", "Female"],
  q0 4 "Date of Birth (DD/MM/YYYY):" "date",
  q0 5 "Marital Status:" "text",
  q0 6 "Occupation:" "text",
  q0 7 "Phone Number:" "text",
  q0 8 "Location:" "text",
  qOpt 9 "Have you ever been diagnosed with diabetes?" "choice" ["Yes", "No"],
  qReq 10 "If yes, when? (YYYY-MM-DD)" "date" 9 ["Yes"],
  qOpt 11 "Type of Diabetes:" "choice" ["Type 1", "Type 2", "Gestational", "Not sure"],
  qOpt 12 "Family history of diabetes?" "choice" ["Yes", "No"],
  qReq 13 "If yes, who?" "text" 12 ["Yes"],
  qOpt 14 "Are you currently on diabetes medications?" "choice" ["Yes", "No"],
  qReq 15 "If yes, which ones?" "text" 14 ["Yes"],
  qOpt 16 "Have you ever been on insulin?" "choice" ["Yes", "No"],
  q0 17 "Any other diagnosed health conditions?" "text",
  q0 18 "Allergies (food or drug):" "text",
  qOpt 19 "Smoking:" "choice" ["Never", "Former smoker", "Current smoker"],
  qOpt 20 "Alcohol:" "choice" ["None", "Occasionally", "Frequently"],
  qOpt 21 "Physical activity:" "choice" ["None", "1-2 times/week", "3-4 times/week", "Daily"],
  q0 22 "What type of activity?" "text",
  qOpt 23 "Sleep patterns:" "choice" ["Poor", "Fair", "Good"],
  q0 24 "Average hours per night:" "number",
  qOpt 25 "Stress level:" "choice" ["Low", "Moderate", "High"],
  q0 26 "How many meals do you eat per day?" "number",
  qOpt 27 "Do you eat late at night?" "choice" ["Yes", "No"],
  qOpt 28 "How often do you eat Rice/Yam/Cassava foods?" "choice" ["Daily", "Weekly", "Rarely"],
  qOpt 29 "How often do you eat Vegetables/leafy greens?" "choice" ["Daily", "Weekly", "Rarely"],
  qOpt 30 "How often do you eat Sugary drinks/snacks?" "choice" ["Daily", "Weekly", "Rarely"],
  qOpt 31 "Symptoms in past 3 months (tick all that apply):" "multiselect" [
    "Frequent urination", "Excessive thirst", "Unexplained weight loss", "Constant hunger",
    "Blurred vision", "Slow-healing wounds", "Tingling or numbness in hands/feet",
    "Fatigue/weakness", "Recurrent infections", "Headaches/dizziness",
    "Sleep disturbances", "Increased irritability or mood swings"],
  q0 32 "Last known blood sugar reading (Fasting):" "text",
  q0 33 "Last known HbA1c (if tested):" "text",
  q0 34 "Current weight (kg):" "number",
  q0 35 "Height (cm):" "number",
  q0 36 "Waist circumference (cm):" "number",
  q0 37 "Blood pressure (last reading, if known):" "text",
  q0 38 "What are your main health goals?" "textarea",
  q0 39 "What challenges do you face in managing your diabetes?" "textarea"]

def HBP_QUESTIONS : List Question := [
  q0 1 "Full Name:" "text",
  q0 2 "Date of Birth (DD/MM/YYYY):" "date",
  q0 3 "Age:" "number",
  qOpt 4 "Gender:" "choice" ["Male", "Female", "Other"],
  q0 5 "Marital Status:" "text",
  q0 6 "Address:" "text",
  q0 7 "Phone Number:" "text",
  q0 8 "Email:" "email",
  q0 9 "Occupation:" "text",
  qOpt 10 "Do you have a history of high blood pressure (hypertension)?" "choice" ["Yes", "No"],
  qReq 11 "If yes, for how long?" "text" 10 ["Yes"],
  qOpt 12 "Family history of high blood pressure?" "choice" ["Yes", "No"],
  qReq 13 "If yes, indicate relation:" "text" 12 ["Yes"],
  q0 14 "Other family health conditions:" "textarea",
  q0 15 "Personal medical history:" "textarea",
  qOpt 16 "Do you take medication for high blood pressure?" "choice" ["Yes", "No"],
  qReq 17 "If yes, please list:" "textarea" 16 ["Yes"],
  qOpt 18 "Any herbal remedies or supplements currently used?" "choice" ["Yes", "No"],
  qReq 19 "If yes, specify:" "textarea" 18 ["Yes"],
  qOpt 20 "How often do you eat fruits/vegetables?" "choice" ["Daily", "Occasionally", "Rarely"],
  qOpt 21 "Salt intake:" "choice" ["Low", "Moderate", "High"],
  qOpt 22 "Do you eat processed/fast food regularly?" "choice" ["Yes", "No"],
  qOpt 23 "Alcohol consumption:" "choice" ["None", "Occasionally", "Frequently"],
  qOpt 24 "Do you exercise?" "choice" ["Yes", "No"],
  qReq 25 "If yes, what type and how often?" "textarea" 24 ["Yes"],
  qOpt 26 "Do you smoke?" "choice" ["Yes", "No"],
  qReq 27 "If yes, how many sticks per day?" "text" 26 ["Yes"],
  qOpt 28 "How would you rate your daily stress?" "choice" ["Low", "Moderate", "High"],
  q0 29 "Common stress triggers:" "textarea",
  q0 30 "Hours of sleep per night:" "number",
  qOpt 31 "Sleep quality:" "choice" ["Good", "Fair", "Poor"],
  qOpt 32 "Symptoms (tick all that apply):" "multiselect" [
    "Headaches", "Dizziness", "Blurred vision", "Chest pain", "Shortness of breath",
    "Irregular heartbeat", "Nosebleeds", "Fatigue or weakness",
    "Swelling in legs, ankles, or feet", "Difficulty sleeping",
    "Frequent urination at night"],
  q0 33 "Current Blood Pressure Reading:" "text",
  q0 34 "Heart Rate (Pulse):" "number",
  q0 35 "Weight (kg):" "number",
  q0 36 "Height (cm):" "number",
  q0 37 "Body Mass Index (BMI):" "text",
  q0 38 "Waist Circumference (cm):" "number",
  q0 39 "What do you hope to achieve by managing your blood pressure?" "textarea"]

def WEIGHT_QUESTIONS : List Question := [
  q0 1 "Full Name:" "text",
  q0 2 "Date of Birth (DD/MM/YYYY):" "date",
  q0 3 "Age:" "number",
  qOpt 4 "Gender:" "choice" ["Male", "Female", "Other"],
  q0 5 "Marital Status:" "text",
  q0 6 "Address:" "text",
  q0 7 "Phone Number:" "text",
  q0 8 "Email:" "email",
  q0 9 "Occupation:" "text",
  qOpt 10 "Family history of obesity?" "choice" ["Yes", "No"],
  qReq 11 "If yes, indicate relation:" "text" 10 ["Yes"],
  q0 12 "Family history of related health conditions:" "textarea",
  q0 13 "Personal medical history:" "textarea",
  qOpt 14 "Are you currently on medication?" "choice" ["Yes", "No"],
  qReq 15 "If yes, list:" "textarea" 14 ["Yes"],
  qOpt 16 "Any herbal remedies, teas, or supplements used for weight management?" "choice" ["Yes", "No"],
  qReq 17 "If yes, specify:" "textarea" 16 ["Yes"],
  q0 18 "Meals per day:" "number",
  qOpt 19 "Do you eat breakfast daily?" "choice" ["Yes", "No"],
  qOpt 20 "Portion sizes:" "choice" ["Small", "Moderate", "Large"],
  qOpt 21 "Snacking habits:" "choice" ["Rarely", "Sometimes", "Often"],
  qOpt 22 "Fast food/processed food intake:" "choice" ["Rarely", "Sometimes", "Often"],
  qOpt 23 "Sugary drink intake:" "choice" ["Rarely", "Sometimes", "Often"],
  qOpt 24 "Alcohol consumption:" "choice" ["None", "Occasionally", "Frequently"],
  qOpt 25 "Do you exercise regularly?" "choice" ["Yes", "No"],
  qReq 26 "If yes, what type and how often?" "textarea" 25 ["Yes"],
  qReq 27 "If no, main barriers:" "textarea" 25 ["No"],
  qOpt 28 "Smoking:" "choice" ["Current smoker", "Former smoker", "Never smoked"],
  q0 29 "Hours of sleep per night:" "number",
  qOpt 30 "Sleep quality:" "choice" ["Good", "Fair", "Poor"],
  qOpt 31 "Daily stress:" "choice" ["Low", "Moderate", "High"],
  q0 32 "Common stress triggers:" "textarea",
  qOpt 33 "Tick all that apply:" "multiselect" [
    "Excessive weight gain", "Difficulty losing weight", "Constant fatigue",
    "Shortness of breath", "Snoring", "Joint pain", "Swelling in legs/ankles",
    "Emotional eating", "Depression", "Low self-esteem", "Irregular menstrual cycle",
    "Erectile dysfunction"],
  q0 34 "Current Weight (kg):" "number",
  q0 35 "Height (cm):" "number",
  q0 36 "Body Mass Index (BMI):" "text",
  q0 37 "Waist Circumference (cm):" "number",
  q0 38 "Hip Circumference (cm):" "number",
  q0 39 "Waist-to-Hip Ratio:" "text",
  q0 40 "Blood Pressure:" "text",
  q0 41 "Heart Rate:" "number",
  q0 42 "What are your main goals in managing obesity?" "textarea"]

def DETOX_QUESTIONS : List Question := [
  q0 1 "Full Name:" "text",
  q0 2 "Date of Birth (DD/MM/YYYY):" "date",
  q0 3 "Age:" "number",
  qOpt 4 "Gender:" "choice" ["Male", "Female", "Other"],
  q0 5 "Marital Status:" "text",
  q0 6 "Address:" "text",
  q0 7 "Phone Number:" "text",
  q0 8 "Email:" "email",
  q0 9 "Occupation:" "text",
  qOpt 10 "Do you consider yourself generally healthy?" "choice" ["Yes", "No"],
  qReq 11 "If no, explain:" "textarea" 10 ["No"],
  q0 12 "Family history of chronic illnesses:" "textarea",
  q0 13 "Personal medical history:" "textarea",
  q0 14 "Current medications or supplements:" "textarea",
  q0 15 "Meals per day:" "number",
  q0 16 "Water intake (glasses per day):" "number",
  qOpt 17 "Fruits/vegetables:" "choice" ["Daily", "Occasionally", "Rarely"],
  qOpt 18 "Processed/packaged food intake:" "choice" ["Rarely", "Sometimes", "Often"],
  qOpt 19 "Salt intake:" "choice" ["Low", "Moderate", "High"],
  qOpt 20 "Sugar/sweet drinks:" "choice" ["Rarely", "Sometimes", "Often"],
  qOpt 21 "Alcohol:" "choice" ["None", "Occasionally", "Frequently"],
  qOpt 22 "Caffeine:" "choice" ["None", "Occasionally", "Daily"],
  qOpt 23 "Do you exercise regularly?" "choice" ["Yes", "No"],
  qReq 24 "If yes, type and frequency:" "textarea" 23 ["Yes"],
  q0 25 "Average hours of sleep:" "number",
  qOpt 26 "Sleep quality:" "choice" ["Good", "Fair", "Poor"],
  qOpt 27 "Daily stress:" "choice" ["Low", "Moderate", "High"],
  q0 28 "Stress management methods:" "textarea",
  qOpt 29 "Smoking:" "choice" ["Never", "Former smoker", "Current smoker"],
  qOpt 30 "Recreational drugs:" "choice" ["Never", "Occasionally", "Frequently"],
  qOpt 31 "Past 6 months symptoms (tick all that apply):" "multiselect" [
    "Fatigue", "Frequent headaches", "Digestive problems", "Skin breakouts",
    "Brain fog", "Joint or muscle aches", "Unexplained weight gain/loss",
    "Irregular menstrual cycle", "Mood swings", "Poor sleep",
    "Frequent colds or infections"],
  q0 32 "Weight (kg):" "number",
  q0 33 "Height (cm):" "number",
  q0 34 "BMI:" "text",
  q0 35 "Waist circumference (cm):" "number",
  q0 36 "Blood pressure:" "text",
  q0 37 "Resting heart rate:" "number",
  q0 38 "What do you want to achieve with a detox & prevention plan?" "textarea"]

/-- `get_questions`: category dispatch, empty list for unknown categories. -/
def get_questions (category : String) : List Question :=
  let cat := pyLower category
  if cat = "diabetes" then DIABETES_QUESTIONS
  else if cat = "hbp" ∨ cat = "high blood pressure" ∨ cat = "hypertension" then HBP_QUESTIONS
  else if cat = "weight" ∨ cat = "weight management" ∨ cat = "obesity" then WEIGHT_QUESTIONS
  else if cat = "detox" then DETOX_QUESTIONS
  else []

/-- `_get_answer_by_question_id`: resolve a question id to its label (ids are
unique within a catalog, so the first match is the dict entry), then read the
answer; `None` when the id is unknown. -/
def _get_answer_by_question_id (questions : List Question) (answers : Answers) (ref_id : Nat) :
    Value :=
  match questions.find? (fun q => q.id = ref_id) with
  | none => .null
  | some q => pyGet answers q.question

/-- `_value_is_filled`: type-aware "is filled" predicate. -/
def _value_is_filled (qtype : String) (val : Value) : Bool :=
  if qtype = "text" ∨ qtype = "email" ∨ qtype = "date" ∨ qtype = "textarea" ∨ qtype = "choice" then
    match val with
    | .str s => pyStrip s ≠ ""
    | _ => false
  else if qtype = "number" then
    match val with
    | .null => false
    | .str s => if s = "" then false else (pyFloatOfString s).isSome
    | .num _ => true
    | .bool _ => true  -- float(bool) succeeds in Python
    | .vlist _ => false
    | .vdict _ => false
  else if qtype = "multiselect" then
    match val with
    | .vlist l => !l.isEmpty
    | _ => false
  else
    match val with
    | .null => false
    | .str s => s ≠ ""
    | _ => true  -- a non-None, non-string value never equals "" in Python

/-- `is_required`: unconditionally required without a `required_when` clause;
otherwise required iff the referenced question's answer is one of the trigger
values (trigger values are strings, so only a string answer can match). -/
def is_required (question : Question) (answers : Answers) (questions : List Question) : Bool :=
  match question.required_when with
  | none => true
  | some (ref_id, values) =>
    match _get_answer_by_question_id questions answers ref_id with
    | .str s => values.contains s
    | _ => false

/-- The loop body of `validate_answers`, recursing over the catalog while
keeping the full catalog for `required_when` reference lookups. -/
def validateLoop (allQs : List Question) (answers : Answers) : List Question → List String
  | [] => []
  | q :: rest =>
    if is_required q answers allQs && !(_value_is_filled q.type (pyGet answers q.question)) then
      q.question :: validateLoop allQs answers rest
    else
      validateLoop allQs answers rest

/-- `validate_answers`: the labels of required-but-unfilled questions, in
catalog order. -/
def validate_answers (category : String) (answers : Answers) : List String :=
  validateLoop (get_questions category) answers (get_questions category)

/-! ## `survey/utils/ai.py` — meal catalog and plan generation -/

/-- A catalog/selected meal item (`{"id": ..., "name": ..., "tags": [...]}`).
Items are built without an id and receive one in the final enumeration pass;
fallback items created inside the plan generators never receive an id. -/
structure Item where
  id : Option Nat
  name : String
  tags : List String
  deriving DecidableEq

/-- `_title`: upper-case the first character. -/
def pyTitle (s : String) : String :=
  match s.data with
  | [] => s
  | c :: cs => String.mk (c.toUpper :: cs)

/-- `_build_variations`: cycle base names against preparation methods until
`target` items exist (the `while` loop appends exactly one item per iteration,
so it yields `target` items whenever `bases` is non-empty, else none). -/
def buildVariations (bases methods extra_tags : List String) (target : Nat) : List Item :=
  if bases.isEmpty then []
  else
    (List.range target).map (fun i =>
      let base := bases.getD (i % bases.length) ""
      let method := if methods.isEmpty then "" else methods.getD (i % methods.length) ""
      let name := if method ≠ "" then pyTitle method ++ " " ++ base else pyTitle base
      let tags := "nigerian" :: extra_tags
      let tags :=
        if extra_tags.contains "protein" || extra_tags.contains "veg"
            || extra_tags.contains "healthy-fat" then
          tags ++ ["zero-carb-suitable"]
        else tags
      ⟨none, name, tags⟩)

def protein_bases : List String := [
  "eggs", "egg whites", "chicken breast", "chicken thigh", "turkey", "lean beef",
  "lean goat meat", "tilapia", "mackerel", "catfish", "sardine (water)", "salmon",
  "shrimp", "prawns", "tuna (water)", "tofu", "snail", "gizzard", "kidney (moderate)"]

def protein_methods : List String :=
  ["grilled", "roasted", "baked", "boiled", "stewed", "smoked", "pan-seared"]

def veg_bases : List String := [
  "spinach (efo)", "ugu (pumpkin leaves)", "soko (celosia)", "bitterleaf",
  "okra", "cabbage", "lettuce", "kale", "cucumber", "tomatoes", "carrots",
  "bell pepper", "green beans", "broccoli", "cauliflower", "garden egg",
  "amaranth greens"]

def veg_methods : List String := ["steamed", "sautéed", "stir-fried", "raw salad"]

def carb_bases : List String := [
  "brown rice", "ofada rice", "white rice", "yam", "sweet potato", "Irish potato",
  "plantain", "garri (eba)", "amala", "semovita (semo)", "fufu", "tuwo",
  "beans (boiled)", "spaghetti", "macaroni", "couscous", "millet", "oats",
  "wheat semolina", "pounded yam"]

def fat_bases : List String := [
  "avocado (half)", "avocado (quarter)", "olive oil (1 tbsp)", "olive oil (2 tsp)",
  "groundnuts (handful)", "cashews (handful)", "almonds (handful)", "walnuts (handful)",
  "peanut butter, no sugar (1 tbsp)", "groundnut oil (1 tsp)", "palm oil (controlled, 1 tsp)",
  "coconut oil (1 tsp)", "flaxseed (1 tbsp)", "chia seeds (1 tbsp)", "sesame seeds (1 tbsp)"]

/-- `_build_carb_items`: portion-prefixed carbohydrate items. -/
def buildCarbItems (bases : List String) (target : Nat) : List Item :=
  if bases.isEmpty then []
  else
    (List.range target).map (fun i =>
      let base := bases.getD (i % bases.length) ""
      let portion := ["small portion of", "moderate portion of"].getD (i % 2) ""
      ⟨none, pyTitle portion ++ " " ++ base, ["nigerian", "lunch-carb", "carb"]⟩)

/-- `_build_fat_items`. -/
def buildFatItems (bases : List String) (target : Nat) : List Item :=
  if bases.isEmpty then []
  else
    (List.range target).map (fun i =>
      ⟨none, pyTitle (bases.getD (i % bases.length) ""), ["nigerian", "healthy-fat", "zero-carb-suitable"]⟩)

/-- `for idx, item in enumerate(all_items, start=1): item["id"] = idx`. -/
def assignIds : List Item → Nat → List Item
  | [], _ => []
  | it :: rest, n => { it with id := some n } :: assignIds rest (n + 1)

/-- `generate_hundred_meals` from `ai.py`: the deterministic 4×100-item
catalog.  The `category` and `answers` arguments are accepted and ignored by
the source. -/
def generate_hundred_meals (category : String) (answers : Answers) : List Item :=
  let proteins := buildVariations protein_bases protein_methods ["protein"] 100
  let vegetables := buildVariations veg_bases veg_methods ["veg", "vegetables"] 100
  let carbs := buildCarbItems carb_bases 100
  let fats := buildFatItems fat_bases 100
  assignIds (proteins ++ vegetables ++ carbs ++ fats) 1

/-- A Python exception escaping a call of the embedded code. -/
inductive PyExc where
  | nameError (name : String) : PyExc
  deriving DecidableEq

/-- Evaluating a call of a global name that is defined nowhere in the
repository raises `NameError` at that point
(`_allergy_keywords_from_answers`, `_filter_allergy_items` and
`_choose_first_safe` are called in `ai.py` but defined in no module). -/
def undefinedFunction {α : Type} (name : String) : Except PyExc α :=
  .error (.nameError name)

structure DayPlan where
  day : Nat
  breakfast : String
  lunch : String
  dinner : String
  snacks : List String
  deriving DecidableEq

/-- The `{"days": [...]}` dict returned by the plan generators. -/
structure PlanDays where
  days : List DayPlan
  deriving DecidableEq

def herbalSnacks : List String :=
  ["Herbal tea (morning)", "Herbal tea (with lunch)", "Herbal tea (night)"]

/-- The nested `_split` helper (identical in `generate_two_day_plan` and
`generate_month_plan`): partition items into (proteins, carbs, vegs, fats) by
lower-cased tags. -/
def planSplit (items : List Item) : List Item × List Item × List Item × List Item :=
  let has := fun (it : Item) (key : String) => (it.tags.map pyLower).contains key
  (items.filter (fun it => has it "protein"),
   items.filter (fun it => has it "lunch-carb" || has it "carb"),
   items.filter (fun it => has it "veg" || has it "vegetables"),
   items.filter (fun it => has it "healthy-fat"))

/-- `pool[i % len(pool)]["name"]`.  Every use site follows the non-empty
fallback step, so the default for an empty pool is never exercised (and all
these use sites are anyway unreachable past the `NameError`). -/
def cyc (pool : List Item) (i : Nat) : String :=
  (pool.getD (i % pool.length) ⟨none, "", []⟩).name

/-- `generate_two_day_plan` from `ai.py`.  Its first statement evaluates
`_allergy_keywords_from_answers(answers or {})`, a name defined nowhere in
the repository, so every call raises `NameError` there; the remainder of the
body is embedded as written but is unreachable. -/
def generate_two_day_plan (category : String) (selected_meals : List Item)
    (answers : Answers) (assessment : Option (List (String × Value))) :
    Except PyExc PlanDays := do
  let allergy_kws : List String ← undefinedFunction "_allergy_keywords_from_answers"
  let base : List Item ← undefinedFunction "_filter_allergy_items"
  let (proteins, carbs, vegs, fats) := planSplit base
  let proteins ←
    if proteins.isEmpty then do
      let p : String ← undefinedFunction "_choose_first_safe"
      pure [Item.mk none p ["protein"]]
    else pure proteins
  let vegs ←
    if vegs.isEmpty then do
      let v : String ← undefinedFunction "_choose_first_safe"
      pure [Item.mk none v ["veg"]]
    else pure vegs
  let fats ←
    if fats.isEmpty then do
      let f : String ← undefinedFunction "_choose_first_safe"
      pure [Item.mk none f ["healthy-fat"]]
    else pure fats
  let carbs ←
    if carbs.isEmpty then do
      let c : String ← undefinedFunction "_choose_first_safe"
      pure [Item.mk none c ["lunch-carb"]]
    else pure carbs
  let zero_carb_text := fun (i : Nat) =>
    cyc proteins i ++ " with " ++ pyLower (cyc vegs (i * 2)) ++ " (" ++ cyc fats (i * 3) ++ ")"
  let lunch_text := fun (i : Nat) =>
    cyc carbs i ++ " with " ++ pyLower (cyc proteins (i + 1)) ++ " and "
      ++ pyLower (cyc vegs (i + 2))
  pure ⟨[⟨1, zero_carb_text 0, lunch_text 0, zero_carb_text 1, herbalSnacks⟩,
         ⟨2, zero_carb_text 2, lunch_text 1, zero_carb_text 3, herbalSnacks⟩]⟩

/-- The bounded resample loop of `generate_month_plan`
(`while triplet in seen and shift < 10`). -/
def shiftLoop (zc lt : Nat → String) (seen : List (String × String × String)) (i : Nat)
    (t : String × String × String) (shift : Nat) : String × String × String :=
  if h : seen.contains t ∧ shift < 10 then
    shiftLoop zc lt seen i
      (zc (i + (shift + 1)), lt (i + (shift + 1)), zc (i + 13 + (shift + 1))) (shift + 1)
  else t
  termination_by 10 - shift
  decreasing_by simp_wf; omega

/-- `generate_month_plan` from `ai.py`.  Like `generate_two_day_plan`, its
first statement calls the undefined `_allergy_keywords_from_answers`, so every
call raises `NameError`; the 30-day construction below it is embedded as
written but is unreachable. -/
def generate_month_plan (category : String) (selected_meals : List Item)
    (answers : Answers) (assessment : Option (List (String × Value))) :
    Except PyExc PlanDays := do
  let allergy_kws : List String ← undefinedFunction "_allergy_keywords_from_answers"
  let base : List Item ← undefinedFunction "_filter_allergy_items"
  let (proteins, carbs, vegs, fats) := planSplit base
  let proteins ←
    if proteins.isEmpty then do
      let p1 : String ← undefinedFunction "_choose_first_safe"
      let p2 : String ← undefinedFunction "_choose_first_safe"
      pure [Item.mk none p1 ["protein"], Item.mk none p2 ["protein"]]
    else pure proteins
  let vegs ←
    if vegs.isEmpty then do
      let v1 : String ← undefinedFunction "_choose_first_safe"
      let v2 : String ← undefinedFunction "_choose_first_safe"
      pure [Item.mk none v1 ["veg"], Item.mk none v2 ["veg"]]
    else pure vegs
  let fats ←
    if fats.isEmpty then do
      let f1 : String ← undefinedFunction "_choose_first_safe"
      let f2 : String ← undefinedFunction "_choose_first_safe"
      pure [Item.mk none f1 ["healthy-fat"], Item.mk none f2 ["healthy-fat"]]
    else pure fats
  let carbs ←
    if carbs.isEmpty then do
      let c1 : String ← undefinedFunction "_choose_first_safe"
      let c2 : String ← undefinedFunction "_choose_first_safe"
      pure [Item.mk none c1 ["lunch-carb"], Item.mk none c2 ["lunch-carb"]]
    else pure carbs
  -- lvl = int(assessment.get("level") or 1) under try/except, default 1
  let lvl : Int :=
    match assessment with
    | some d =>
      if pyHasKey d "level" then
        match pyInt (if pyTruthy (pyGet d "level") then pyGet d "level" else .num 1) with
        | some n => n
        | none => 1
      else 1
    | none => 1
  let portion_prefix := if lvl ≥ 2 then "small portion of" else "moderate portion of"
  let zero_carb_text := fun (i : Nat) =>
    cyc proteins i ++ " with " ++ pyLower (cyc vegs (i * 2)) ++ " (" ++ cyc fats (i * 3) ++ ")"
  let lunch_text := fun (i : Nat) =>
    let c := cyc carbs i
    let c := if !(strContains (pyLower c) "portion of") then portion_prefix ++ " " ++ c else c
    c ++ " with " ++ pyLower (cyc proteins (i + 1)) ++ " and " ++ pyLower (cyc vegs (i + 2))
  let step := fun (acc : List DayPlan × List (String × String × String)) (i : Nat) =>
    let t0 := (zero_carb_text i, lunch_text i, zero_carb_text (i + 13))
    let t := shiftLoop zero_carb_text lunch_text acc.2 i t0 0
    (acc.1 ++ [⟨i + 1, t.1, t.2.1, t.2.2, herbalSnacks⟩], acc.2 ++ [t])
  let res := (List.range 30).foldl step ([], [])
  pure ⟨res.1⟩

/-! ## `survey/views.py` — `SelectMealsView.post` (free 2-day preview) -/

/-- A stored `MealPlan` row, as far as the preview endpoint consults it.
`answers` stands for the answer dict of the plan's latest `SurveySubmission`
for its category (`{}` when there is none): the view reconstructs it through
the ORM, which this embedding treats as part of the stored record since
persistence is an external collaborator.  Timestamps (`free_generated_at`)
are infrastructure and not modelled. -/
structure MealPlanRec where
  id : Nat
  email : String
  category : String
  assessment : Option (List (String × Value))
  hundred_meals : List Item
  selected_meal_ids : List Nat
  free_plan : Option PlanDays
  paid_plan : Option PlanDays
  answers : Answers

/-- The HTTP response of the endpoint: a success payload (optionally carrying
the serialized meal plan) or an error with its HTTP status code. -/
inductive Resp where
  | success (message : String) (plan : Option MealPlanRec) : Resp
  | error (status : Nat) (message : String) : Resp

/-- `SelectMealsView.post` from `views.py`: look up the plan; if the monthly
plan is already unlocked return it; if this plan (or any other plan of the
same email, free-generated and unpaid) already used the free tier, refuse with
403; otherwise build the selected-meal list and generate the free 2-day plan
(which in this codebase raises `NameError`), then store it.  The database is
the list of stored plans; the returned database reflects any save. -/
def select_meals_post (db : List MealPlanRec) (meal_plan_id : Nat)
    (selected_meal_ids : List Nat) : Except PyExc (Resp × List MealPlanRec) :=
  match db.find? (fun p => decide (p.id = meal_plan_id)) with
  | none => .ok (.error 404 "Meal plan not found.", db)
  | some plan =>
    if plan.paid_plan.isSome then
      .ok (.success "Monthly plan already unlocked." (some plan), db)
    else if plan.free_plan.isSome then
      .ok (.error 403 "Free plan already generated for this email. Please upgrade to access the monthly plan.", db)
    else if db.any (fun p =>
        decide (p.email = plan.email) && p.free_plan.isSome && p.paid_plan.isNone
          && decide (p.id ≠ plan.id)) then
      .ok (.error 403 "A free plan for this email already exists. Please upgrade to access the monthly plan.", db)
    else do
      -- index = {item["id"]: item}; catalog ids are unique, so first match is the dict entry
      let selected_meals := selected_meal_ids.filterMap
        (fun mid => plan.hundred_meals.find? (fun it => decide (it.id = some mid)))
      let free_plan ← generate_two_day_plan plan.category selected_meals plan.answers
        plan.assessment
      let plan' := { plan with selected_meal_ids := selected_meal_ids,
                               free_plan := some free_plan }
      .ok (.success "2-day free plan generated." (some plan'),
           db.map (fun p => if p.id = plan.id then plan' else p))

/-! ## `survey/utils/assessment.py` — the allergy filter nested in
`get_stage_template` -/

/-- `str.replace(a, b)` for a single-character pattern. -/
def replaceChar (a b : Char) (cs : List Char) : List Char :=
  cs.map (fun c => if c = a then b else c)

/-- `str.lower()` at character-list level. -/
def lowerChars (cs : List Char) : List Char := cs.map Char.toLower

/-- The text scanned for allergy keywords: the concatenation (with a leading
space each, from `text += f" {v}"`) of the values of every answer whose key
contains `"allerg"` case-insensitively. -/
def allergyText (a : Answers) : List Char :=
  a.foldl
    (fun acc kv =>
      if strContains (pyLower kv.1) "allerg" then acc ++ (' ' :: (pyStr kv.2).data) else acc)
    []

/-- Python `str.split(sep)` for a one-character separator class: split at
every character satisfying `p`, keeping empty segments (`"a,,b".split(",")`
is `["a", "", "b"]`). -/
def pySplit (p : Char → Bool) : List Char → List (List Char)
  | [] => [[]]
  | c :: cs =>
    if p c then [] :: pySplit p cs
    else
      match pySplit p cs with
      | [] => [[c]]
      | s :: ss => (c :: s) :: ss

/-- Maximal non-separator runs: split on `p`, drop the empty segments.
`token.split()` in Python (no argument) behaves this way for whitespace. -/
def tokensF (p : Char → Bool) (cs : List Char) : List (List Char) :=
  (pySplit p cs).filter (fun t => !t.isEmpty)

/-- The `_allergy_keywords` closure of `get_stage_template`: lowercase the
collected text, turn `/ | & ;` into spaces, split on commas, and for each
comma segment strip it, skip it when blank, split it on whitespace and keep
the words of length ≥ 3.  (The Python code accumulates the words into a
`set`; the embedding returns the added words in order — emptiness and
membership, the only operations performed on the set, agree.) -/
def _allergy_keywords (a : Answers) : List (List Char) :=
  let text := allergyText a
  let s1 := replaceChar ';' ' ' (replaceChar '&' ' '
    (replaceChar '|' ' ' (replaceChar '/' ' ' (lowerChars text))))
  (pySplit (fun c => c = ',') s1).flatMap (fun raw =>
    let token := trimChars raw
    if token.isEmpty then []
    else (tokensF Char.isWhitespace token).filter (fun w => 3 ≤ w.length))

/-- The `_filter_allergies` closure of `get_stage_template`: with no keywords
the pool is returned as is; otherwise an item is dropped when its lowercased
name contains any keyword as a substring. -/
def _filter_allergies (allergy_kws : List (List Char)) (pool : List Item) : List Item :=
  if allergy_kws.isEmpty then pool
  else pool.filter (fun it => !(allergy_kws.any (fun kw => containsSub kw (pyLower it.name).data)))

/-- The pointwise effect of the four successive `replace` calls: slash, pipe,
ampersand and semicolon become spaces, everything else is unchanged. -/
def sepToSpace (c : Char) : Char :=
  if c = '/' ∨ c = '|' ∨ c = '&' ∨ c = ';' then ' ' else c

/-- Spec-side separator class: comma, slash, pipe, ampersand, semicolon, and
whitespace. -/
def isSepChar (c : Char) : Bool :=
  c = ',' || c = '/' || c = '|' || c = '&' || c = ';' || c.isWhitespace

/-- Modelled from the spec ("every lowercased token of length ≥ 3 obtained by
splitting the concatenated values on comma, slash, pipe, ampersand, semicolon,
and whitespace"): the one-pass tokenization the spec describes, to be compared
with the code's replace/split/strip/split pipeline. -/
def specAllergyKeywords (a : Answers) : List (List Char) :=
  (tokensF isSepChar (lowerChars (allergyText a))).filter (fun w => 3 ≤ w.length)

/-! ## Spec-side definitions for the refinement claims -/

/-- Modelled from the spec: diabetes severity is the maximum of the fired
threshold rules (FBS > 180 → 3, 126–180 → 2, 100–125 → 1; HbA1c ≥ 8 → 3,
6.5–7.9 → 2, 5.7–6.4 → 1), defaulting to level 1. -/
def specDiabetesLevel (fbs hba1c : Option ℚ) : Int :=
  let fbsRule : Int :=
    match fbs with
    | some v =>
      if v > 180 then 3 else if 126 ≤ v ∧ v ≤ 180 then 2
      else if 100 ≤ v ∧ v ≤ 125 then 1 else 0
    | none => 0
  let hbRule : Int :=
    match hba1c with
    | some v =>
      if v ≥ 8 then 3 else if (6.5 : ℚ) ≤ v ∧ v ≤ 7.9 then 2
      else if (5.7 : ℚ) ≤ v ∧ v ≤ 6.4 then 1 else 0
    | none => 0
  max 1 (max fbsRule hbRule)

/-- Modelled from the spec: hypertension severity from a parsed reading
(level 3 if sys ≥ 160 or dia ≥ 100; level 2 if 140 ≤ sys ≤ 159 or
90 ≤ dia ≤ 99; level 1 otherwise), and level 1 when no reading parses. -/
def specHbpLevel (reading : Option (ℚ × ℚ)) : Int :=
  match reading with
  | none => 1
  | some (s, d) =>
    if s ≥ 160 ∨ d ≥ 100 then 3
    else if (140 ≤ s ∧ s ≤ 159) ∨ (90 ≤ d ∧ d ≤ 99) then 2
    else 1

/-- Both-or-neither packaging of `_parse_bp`'s result. -/
def bpPair (sd : Option ℚ × Option ℚ) : Option (ℚ × ℚ) :=
  match sd.1, sd.2 with
  | some s, some d => some (s, d)
  | _, _ => none

/-- Modelled from the spec: a question is required when it has no
`required_when` clause, or when the referenced question's answer is among the
trigger values. -/
def specRequired (q : Question) (answers : Answers) (allQs : List Question) : Bool :=
  match q.required_when with
  | none => true
  | some (refId, vals) =>
    match allQs.find? (fun r => r.id = refId) with
    | none => false
    | some r =>
      match pyGet answers r.question with
      | .str s => vals.contains s
      | _ => false

/-- Modelled from the spec: the type-aware filled predicate (non-blank string
for text/email/date/textarea/choice; float-parseable for number; non-empty
list for multiselect; permissive default otherwise). -/
def specFilled (q : Question) (answers : Answers) : Bool :=
  let val := pyGet answers q.question
  if q.type = "text" ∨ q.type = "email" ∨ q.type = "date" ∨ q.type = "textarea"
      ∨ q.type = "choice" then
    match val with
    | .str s => pyStrip s ≠ ""
    | _ => false
  else if q.type = "number" then
    match val with
    | .num _ => true
    | .bool _ => true
    | .str s => s ≠ "" && (pyFloatOfString s).isSome
    | _ => false
  else if q.type = "multiselect" then
    match val with
    | .vlist l => !l.isEmpty
    | _ => false
  else
    match val with
    | .null => false
    | .str s => s ≠ ""
    | _ => true

/-- Modelled from the spec: the missing-question labels are exactly the labels
of the required-but-unfilled catalog questions, in catalog order. -/
def specMissing (category : String) (answers : Answers) : List String :=
  ((get_questions category).filter
    (fun q => specRequired q answers (get_questions category) && !specFilled q answers)).map
    (fun q => q.question)

/-- Modelled from the spec: an advisory reply is accepted exactly when its
`level` is present and parses (via `int`) to one of 1/2/3 and its `condition`
is present and non-empty (truthy). -/
def specAdvisoryAccepted (ai_out : List (String × Value)) : Bool :=
  pyHasKey ai_out "level" && pyTruthy (pyGet ai_out "condition")
    && (match pyInt (pyGet ai_out "level") with
        | some l => l = 1 || l = 2 || l = 3
        | none => false)

/-- The raw advisory label as the source normalizes it before validating:
`str(ai_out.get("label") or "").lower().strip()`. -/
def advisoryLabelRaw (ai_out : List (String × Value)) : String :=
  pyStrip (pyLower (pyStr (if pyTruthy (pyGet ai_out "label") then pyGet ai_out "label"
                           else .str "")))

/-- Python dict assignment `a[k] = v`: overwrite the binding in place when the
key exists, append it otherwise.  Two answer sets that differ only in the
value stored under `k` are `setAnswer a k v₁` and `setAnswer a k v₂`. -/
def setAnswer (a : Answers) (k : String) (v : Value) : Answers :=
  if a.any (fun kv => kv.1 = k) then
    a.map (fun kv => if kv.1 = k then (k, v) else kv)
  else a ++ [(k, v)]

/-! ## Theorems -/

/-! ### Helper lemmas -/

set_option maxRecDepth 10000

/-- Every fact about the catalog, established once on a closed instance
(the generator ignores its arguments, so all instances are definitionally
this one). -/
theorem catalog_closed_facts :
    (generate_hundred_meals "" []).length = 400
    ∧ (generate_hundred_meals "" []).map (fun it => it.id) = (List.range' 1 400).map some
    ∧ ((generate_hundred_meals "" []).take 100).all (fun it => it.tags.contains "protein")
    ∧ (((generate_hundred_meals "" []).drop 100).take 100).all
        (fun it => it.tags.contains "veg" && it.tags.contains "vegetables")
    ∧ (((generate_hundred_meals "" []).drop 200).take 100).all
        (fun it => it.tags.contains "lunch-carb" && it.tags.contains "carb")
    ∧ ((generate_hundred_meals "" []).drop 300).all (fun it => it.tags.contains "healthy-fat") := by
  refine ⟨?_, ?_, ?_, ?_, ?_, ?_⟩ <;> decide

/-! ### C1, C2 — the plan generators call helpers that exist nowhere -/

/-- C2: for every category, selected-meal list, answer set and assessment,
both `generate_two_day_plan` and `generate_month_plan` raise an uncaught
`NameError` at their first statement, because `_allergy_keywords_from_answers`
(and, further down, `_filter_allergy_items` and `_choose_first_safe`) is
defined nowhere in the repository. -/
theorem generators_raise_nameerror_always (category : String) (selected_meals : List Item)
    (answers : Answers) (assessment : Option (List (String × Value))) :
    generate_two_day_plan category selected_meals answers assessment
        = .error (.nameError "_allergy_keywords_from_answers")
    ∧ generate_month_plan category selected_meals answers assessment
        = .error (.nameError "_allergy_keywords_from_answers") :=
  ⟨rfl, rfl⟩

/-- C1: contrary to the spec, `generate_month_plan` produces no 30-day plan on
any input: already at the concrete input (category "diabetes", no selected
meals, empty answers, no assessment) it raises `NameError` on the undefined
`_allergy_keywords_from_answers` instead of returning a plan. -/
theorem month_plan_nameerror_at_concrete_input :
    generate_month_plan "diabetes" [] [] none
      = .error (.nameError "_allergy_keywords_from_answers") := rfl

/-! ### C5 — the catalog generator -/

/-- C5: `generate_hundred_meals` ignores category and answers (identical
output across all calls), and always returns exactly 400 items with ids
1..400 in order, laid out as four consecutive 100-item pools tagged, in this
fixed order: protein, vegetable (`veg`/`vegetables`), carbohydrate
(`lunch-carb`/`carb`), healthy fat (`healthy-fat`). -/
theorem catalog_shape (category : String) (answers : Answers)
    (category' : String) (answers' : Answers) :
    generate_hundred_meals category answers = generate_hundred_meals category' answers'
    ∧ (generate_hundred_meals category answers).length = 400
    ∧ (generate_hundred_meals category answers).map (fun it => it.id)
        = (List.range' 1 400).map some
    ∧ ((generate_hundred_meals category answers).take 100).all
        (fun it => it.tags.contains "protein")
    ∧ (((generate_hundred_meals category answers).drop 100).take 100).all
        (fun it => it.tags.contains "veg" && it.tags.contains "vegetables")
    ∧ (((generate_hundred_meals category answers).drop 200).take 100).all
        (fun it => it.tags.contains "lunch-carb" && it.tags.contains "carb")
    ∧ ((generate_hundred_meals category answers).drop 300).all
        (fun it => it.tags.contains "healthy-fat") := by
  have h : generate_hundred_meals category answers = generate_hundred_meals "" [] := rfl
  rw [h]
  exact ⟨rfl, catalog_closed_facts.1, catalog_closed_facts.2.1, catalog_closed_facts.2.2.1,
    catalog_closed_facts.2.2.2.1, catalog_closed_facts.2.2.2.2.1, catalog_closed_facts.2.2.2.2.2⟩

/-! ### C3 — the deterministic diabetes classifier -/

theorem classify_diabetes_level_spec (a : Answers) :
    (_classify_diabetes a).level
      = specDiabetesLevel
          (_parse_fbs (_get_answer a "Last known blood sugar reading (Fasting):"))
          (_parse_hba1c (_get_answer a "Last known HbA1c (if tested):")) := by
  unfold _classify_diabetes specDiabetesLevel
  cases hf : _parse_fbs (_get_answer a "Last known blood sugar reading (Fasting):") with
  | none =>
    cases hh : _parse_hba1c (_get_answer a "Last known HbA1c (if tested):") with
    | none => simp
    | some v => simp only []; split_ifs <;> simp <;> omega
  | some v =>
    cases hh : _parse_hba1c (_get_answer a "Last known HbA1c (if tested):") with
    | none => simp only []; split_ifs <;> simp <;> omega
    | some w => simp only []; split_ifs <;> simp <;> omega

theorem classify_diabetes_label_map (a : Answers) :
    (_classify_diabetes a).label = levelLabelMap ((_classify_diabetes a).level) := rfl

/-- C3: the deterministic diabetes classifier computes the maximum of the
fired threshold rules (proved against the spec-side rule table for every
answer set), its label always follows the fixed level→label map, and on the
concrete inputs: FBS "200" → level 3, "150" → level 2, "110" → level 1, and
"90" with no HbA1c → level 1 with the insufficient-metrics reasoning text. -/
theorem diabetes_classifier_spec :
    (∀ a : Answers,
      (_classify_diabetes a).level
        = specDiabetesLevel
            (_parse_fbs (_get_answer a "Last known blood sugar reading (Fasting):"))
            (_parse_hba1c (_get_answer a "Last known HbA1c (if tested):")))
    ∧ (∀ a : Answers,
        (_classify_diabetes a).label = levelLabelMap ((_classify_diabetes a).level))
    ∧ (_classify_diabetes [("Last known blood sugar reading (Fasting):", .str "200")]).level = 3
    ∧ (_classify_diabetes [("Last known blood sugar reading (Fasting):", .str "150")]).level = 2
    ∧ (_classify_diabetes [("Last known blood sugar reading (Fasting):", .str "110")]).level = 1
    ∧ (_classify_diabetes [("Last known blood sugar reading (Fasting):", .str "90")]).level = 1
    ∧ (_classify_diabetes [("Last known blood sugar reading (Fasting):", .str "90")]).reasoning
        = "Insufficient metrics; defaulted to Level 1 (mild)." := by
  exact ⟨classify_diabetes_level_spec, classify_diabetes_label_map,
    by decide, by decide, by decide, by decide, by decide⟩

/-! ### C4 — the deterministic hypertension classifier -/

theorem classify_hbp_level_spec (a : Answers) :
    (_classify_hbp a).level
      = specHbpLevel (bpPair (_parse_bp (_get_answer a "Current Blood Pressure Reading:"))) := by
  unfold _classify_hbp specHbpLevel bpPair
  cases hs : (_parse_bp (_get_answer a "Current Blood Pressure Reading:")).1 with
  | none =>
    cases hd : (_parse_bp (_get_answer a "Current Blood Pressure Reading:")).2 <;> simp [hs, hd]
  | some sv =>
    cases hd : (_parse_bp (_get_answer a "Current Blood Pressure Reading:")).2 with
    | none => simp [hs, hd]
    | some dv =>
      simp only [hs, hd]
      split_ifs <;> simp_all <;> omega

theorem classify_hbp_label_map (a : Answers) :
    (_classify_hbp a).label = levelLabelMap ((_classify_hbp a).level) := by
  unfold _classify_hbp
  cases hs : (_parse_bp (_get_answer a "Current Blood Pressure Reading:")).1 with
  | none =>
    cases hd : (_parse_bp (_get_answer a "Current Blood Pressure Reading:")).2 <;>
      simp [hs, hd, levelLabelMap]
  | some sv =>
    cases hd : (_parse_bp (_get_answer a "Current Blood Pressure Reading:")).2 with
    | none => simp [hs, hd, levelLabelMap]
    | some dv => simp only [hs, hd]

/-- C4: the deterministic hypertension classifier maps a parsed reading by
the threshold table (3 if sys ≥ 160 or dia ≥ 100; 2 if 140 ≤ sys ≤ 159 or
90 ≤ dia ≤ 99; else 1), proved for every answer set against the spec-side
rule table, returns level 1 with the explanatory note when no reading parses,
and on the concrete texts: "165/95" → level 3, "135/82" → level 1; the label
always follows the fixed map. -/
theorem hbp_classifier_spec :
    (∀ a : Answers,
      (_classify_hbp a).level
        = specHbpLevel (bpPair (_parse_bp (_get_answer a "Current Blood Pressure Reading:"))))
    ∧ (∀ a : Answers, (_classify_hbp a).label = levelLabelMap ((_classify_hbp a).level))
    ∧ (_classify_hbp [("Current Blood Pressure Reading:", .str "165/95")]).level = 3
    ∧ (_classify_hbp [("Current Blood Pressure Reading:", .str "135/82")]).level = 1
    ∧ (_classify_hbp []).level = 1
    ∧ (_classify_hbp []).reasoning
        = "No BP reading provided; defaulted to Level 1 if history suggests prehypertension." := by
  exact ⟨classify_hbp_level_spec, classify_hbp_label_map, by decide, by decide, by decide,
    by decide⟩

/-! ### C10 — blood pressure does not influence the diabetes level -/

theorem find?_overwrite (a : Answers) (k k' : String) (v : Value) (h : k' ≠ k) :
    (a.map (fun kv => if kv.1 = k then (k, v) else kv)).find? (fun p => p.1 = k')
      = a.find? (fun p => p.1 = k') := by
  induction a with
  | nil => rfl
  | cons kv rest ih =>
    by_cases hk : kv.1 = k
    · simp [List.find?_cons, hk, Ne.symm h, ih]
    · by_cases hk' : kv.1 = k'
      · simp [List.find?_cons, hk, hk', h]
      · simp [List.find?_cons, hk, hk', ih]

theorem find?_append_single (a : Answers) (k k' : String) (v : Value) (h : k' ≠ k) :
    ((a ++ [(k, v)]).find? (fun p => p.1 = k')) = a.find? (fun p => p.1 = k') := by
  induction a with
  | nil => simp [List.find?_cons, Ne.symm h]
  | cons kv rest ih => by_cases hk' : kv.1 = k' <;> simp [List.find?_cons, hk', ih]

/-- Reading any key other than `k` is unaffected by `a[k] = v`. -/
theorem pyGet_setAnswer_ne (a : Answers) (k k' : String) (v : Value) (h : k' ≠ k) :
    pyGet (setAnswer a k v) k' = pyGet a k' := by
  unfold setAnswer pyGet
  by_cases ha : a.any (fun kv => kv.1 = k)
  · simp only [ha, if_true]
    rw [find?_overwrite a k k' v h]
  · simp only [ha, Bool.false_eq_true, if_false]
    rw [find?_append_single a k k' v h]

/-- The diabetes level and label depend only on the FBS and HbA1c answers. -/
theorem classify_diabetes_congr (a1 a2 : Answers)
    (hf : pyGet a1 "Last known blood sugar reading (Fasting):"
        = pyGet a2 "Last known blood sugar reading (Fasting):")
    (hh : pyGet a1 "Last known HbA1c (if tested):" = pyGet a2 "Last known HbA1c (if tested):") :
    (_classify_diabetes a1).level = (_classify_diabetes a2).level
    ∧ (_classify_diabetes a1).label = (_classify_diabetes a2).label := by
  have hl : (_classify_diabetes a1).level = (_classify_diabetes a2).level := by
    rw [classify_diabetes_level_spec, classify_diabetes_level_spec]
    unfold _get_answer
    rw [hf, hh]
  exact ⟨hl, by rw [classify_diabetes_label_map, classify_diabetes_label_map, hl]⟩

/-- C10: two answer sets that differ only in the value stored under
"Blood pressure (last reading, if known):" yield the same level and the same
label from the deterministic diabetes classifier. -/
theorem diabetes_bp_does_not_change_level (a : Answers) (v1 v2 : Value) :
    (_classify_diabetes (setAnswer a "Blood pressure (last reading, if known):" v1)).level
      = (_classify_diabetes (setAnswer a "Blood pressure (last reading, if known):" v2)).level
    ∧ (_classify_diabetes (setAnswer a "Blood pressure (last reading, if known):" v1)).label
      = (_classify_diabetes (setAnswer a "Blood pressure (last reading, if known):" v2)).label := by
  apply classify_diabetes_congr
  · rw [pyGet_setAnswer_ne _ _ _ _ (by decide), pyGet_setAnswer_ne _ _ _ _ (by decide)]
  · rw [pyGet_setAnswer_ne _ _ _ _ (by decide), pyGet_setAnswer_ne _ _ _ _ (by decide)]

/-! ### C7 — the answer validator -/

theorem is_required_eq_spec (q : Question) (a : Answers) (qs : List Question) :
    is_required q a qs = specRequired q a qs := by
  unfold is_required specRequired _get_answer_by_question_id
  cases q.required_when with
  | none => rfl
  | some rw =>
    obtain ⟨refId, vals⟩ := rw
    simp only []
    cases hf : qs.find? (fun r => r.id = refId) <;> simp [hf]

theorem value_filled_eq_spec (q : Question) (a : Answers) :
    _value_is_filled q.type (pyGet a q.question) = specFilled q a := by
  unfold _value_is_filled specFilled
  split_ifs
  · rfl
  · cases hv : pyGet a q.question with
    | str s => by_cases hs : s = "" <;> simp [hs]
    | null => rfl
    | bool b => rfl
    | num n => rfl
    | vlist l => rfl
    | vdict d => rfl
  · rfl
  · rfl

theorem validateLoop_eq_filter (allQs : List Question) (a : Answers) (qs : List Question) :
    validateLoop allQs a qs
      = (qs.filter (fun q => specRequired q a allQs && !specFilled q a)).map
          (fun q => q.question) := by
  induction qs with
  | nil => rfl
  | cons q rest ih =>
    unfold validateLoop
    rw [is_required_eq_spec, value_filled_eq_spec]
    by_cases hc : (specRequired q a allQs && !specFilled q a) = true
    · simp [List.filter_cons, hc, ih]
    · simp [List.filter_cons, hc, ih]

/-- C7: `validate_answers` returns exactly the labels of the catalog questions
that are required (per the `required_when` trigger semantics) and whose answer
fails the type-aware filled predicate, in catalog definition order; it returns
`[]` exactly when every required question has a type-correct filled answer. -/
theorem validate_answers_spec (category : String) (answers : Answers) :
    validate_answers category answers = specMissing category answers
    ∧ (validate_answers category answers = []
        ↔ ∀ q ∈ get_questions category,
            specRequired q answers (get_questions category) = true
            → specFilled q answers = true) := by
  have h : validate_answers category answers = specMissing category answers :=
    validateLoop_eq_filter _ _ _
  refine ⟨h, ?_⟩
  rw [h]
  unfold specMissing
  simp

/-! ### C8 — `assess_level` and the advisory response -/

/-- C8 (amended): `assess_level` falls back to the deterministic rules exactly
when the advisory reply is rejected (no `level` key, falsy `condition`, or
`level` not int-parseable to 1/2/3); a reply it accepts is used with
sanitization — the `condition` lowercased, the parsed level, a label outside
{mild, moderate, severe} replaced by the canonical label of the level,
non-dict `metrics` replaced by the empty dict, and falsy `reasoning` by the
empty string. -/
theorem assess_level_advisory_handling (ai_out : List (String × Value))
    (category : String) (answers : Answers) :
    (specAdvisoryAccepted ai_out = false
      → assess_level ai_out category answers = _deterministic_assessment category answers)
    ∧ (∀ lvl : Int, pyInt (pyGet ai_out "level") = some lvl
        → specAdvisoryAccepted ai_out = true
        → assess_level ai_out category answers =
            { condition := pyLower (pyStr (pyGet ai_out "condition"))
              level := lvl
              label :=
                if advisoryLabelRaw ai_out = "mild" ∨ advisoryLabelRaw ai_out = "moderate"
                    ∨ advisoryLabelRaw ai_out = "severe" then advisoryLabelRaw ai_out
                else levelLabelMap lvl
              metrics :=
                match pyGet ai_out "metrics" with
                | .vdict d => d
                | _ => []
              reasoning :=
                pyStr (if pyTruthy (pyGet ai_out "reasoning") then pyGet ai_out "reasoning"
                       else .str "") }) := by
  constructor
  · intro hrej
    unfold assess_level
    unfold specAdvisoryAccepted at hrej
    by_cases h1 : pyHasKey ai_out "level" ∧ pyTruthy (pyGet ai_out "condition")
    · obtain ⟨h1a, h1b⟩ := h1
      simp only [h1a, h1b, Bool.true_and, if_true, and_self, ite_true]
      cases hp : pyInt (pyGet ai_out "level") with
      | none => rfl
      | some l =>
        rw [hp] at hrej
        simp only [h1a, h1b, Bool.true_and] at hrej
        have : ¬(l = 1 ∨ l = 2 ∨ l = 3) := by
          intro hc
          rcases hc with h | h | h <;> simp [h] at hrej
        simp [this]
    · rw [if_neg h1]
  · intro lvl hp hacc
    unfold specAdvisoryAccepted at hacc
    rw [hp] at hacc
    simp only [Bool.and_eq_true, decide_eq_true_eq] at hacc
    obtain ⟨⟨h1a, h1b⟩, h3⟩ := hacc
    unfold assess_level
    rw [if_pos ⟨h1a, h1b⟩, hp]
    simp only []
    have h3' : lvl = 1 ∨ lvl = 2 ∨ lvl = 3 := by
      rcases Bool.or_eq_true _ _ |>.mp h3 with h | h
      · rcases Bool.or_eq_true _ _ |>.mp h with h' | h'
        · exact Or.inl (by simpa using h')
        · exact Or.inr (Or.inl (by simpa using h'))
      · exact Or.inr (Or.inr (by simpa using h))
    rw [if_pos h3']
    rfl

/-- C8 counterexample: an advisory reply with a parseable level 2 and present
condition but an invalid label and non-dict metrics is accepted (the level 2
is taken from it, where the deterministic result would be level 1), yet its
label is replaced by "moderate" and its metrics by the empty dict — the
response is not "used whole" and substituted partial data is propagated. -/
theorem assess_level_substitutes_partial_data :
    (assess_level
        [("condition", Value.str "diabetes"), ("level", Value.str "2"),
         ("label", Value.str "bogus"), ("metrics", Value.str "oops")] "diabetes" []).level = 2
    ∧ (assess_level
        [("condition", Value.str "diabetes"), ("level", Value.str "2"),
         ("label", Value.str "bogus"), ("metrics", Value.str "oops")] "diabetes" []).label
        = "moderate"
    ∧ (assess_level
        [("condition", Value.str "diabetes"), ("level", Value.str "2"),
         ("label", Value.str "bogus"), ("metrics", Value.str "oops")] "diabetes" []).metrics
        = []
    ∧ pyGet [("condition", Value.str "diabetes"), ("level", Value.str "2"),
         ("label", Value.str "bogus"), ("metrics", Value.str "oops")] "label"
        = Value.str "bogus"
    ∧ (_deterministic_assessment "diabetes" []).level = 1 :=
  ⟨rfl, rfl, rfl, rfl, rfl⟩

/-- Closed witness for `assess_level_advisory_handling`: a reply without a
`level` key is rejected (deterministic fallback), and a reply with level "2",
condition "diabetes", an off-list label and non-dict metrics is accepted with
the sanitized fields. -/
theorem assess_level_advisory_handling_witness :
    assess_level [("condition", Value.str "hbp")] "detox" []
        = _deterministic_assessment "detox" []
    ∧ assess_level
        [("condition", Value.str "diabetes"), ("level", Value.str "2"),
         ("label", Value.str "bogus"), ("metrics", Value.str "oops")] "detox" []
        = { condition := "diabetes", level := 2, label := "moderate", metrics := []
            reasoning := "" } := by
  constructor
  · exact (assess_level_advisory_handling [("condition", Value.str "hbp")] "detox" []).1
      (by decide)
  · have h := (assess_level_advisory_handling
      [("condition", Value.str "diabetes"), ("level", Value.str "2"),
       ("label", Value.str "bogus"), ("metrics", Value.str "oops")] "detox" []).2 2
      (by decide) (by decide)
    rw [h]
    rfl

/-! ### C9 — requesting a preview when one is already stored -/

/-- C9 (amended): when the looked-up bundle already stores a free 2-day
preview (and the monthly plan is not unlocked), `SelectMealsView.post`
returns an explicit 403 conflict response — not the stored preview — and
leaves the database unchanged: nothing is regenerated, the stored preview
stays intact, and no further free-tier slot is consumed. -/
theorem select_meals_existing_preview_403 (db : List MealPlanRec) (pid : Nat)
    (sel : List Nat) (plan : MealPlanRec)
    (hfind : db.find? (fun p => p.id = pid) = some plan)
    (hpaid : plan.paid_plan = none)
    (hfree : plan.free_plan.isSome = true) :
    select_meals_post db pid sel
      = .ok (.error 403
          "Free plan already generated for this email. Please upgrade to access the monthly plan.",
          db) := by
  unfold select_meals_post
  rw [hfind]
  simp only [hpaid, hfree, Option.isSome_none, Bool.false_eq_true, if_false, if_true]

/-- Closed witness for `select_meals_existing_preview_403` at a one-plan
database whose plan has a stored preview and no paid plan. -/
theorem select_meals_existing_preview_403_witness :
    select_meals_post
        [⟨1, "user@example.com", "diabetes", none, [], [],
          some ⟨[⟨1, "Grilled eggs with kale", "Rice with chicken", "Eggs with okra",
            herbalSnacks⟩]⟩, none, []⟩] 1 [2, 3]
      = .ok (.error 403
          "Free plan already generated for this email. Please upgrade to access the monthly plan.",
          [⟨1, "user@example.com", "diabetes", none, [], [],
            some ⟨[⟨1, "Grilled eggs with kale", "Rice with chicken", "Eggs with okra",
              herbalSnacks⟩]⟩, none, []⟩]) :=
  select_meals_existing_preview_403 _ 1 [2, 3] _ rfl rfl rfl

/-- C9 counterexample: on a bundle whose `free_plan` is already stored, the
endpoint does not return the stored preview — the response is the 403
free-tier error (and the stored bundle row, preview included, is untouched). -/
theorem select_meals_second_preview_is_403 :
    select_meals_post
        [⟨7, "second@example.com", "hbp", none, [], [],
          some ⟨[⟨1, "Boiled tilapia with cabbage", "Yam with turkey", "Tofu with lettuce",
            herbalSnacks⟩]⟩, none, []⟩] 7 []
      = .ok (.error 403
          "Free plan already generated for this email. Please upgrade to access the monthly plan.",
          [⟨7, "second@example.com", "hbp", none, [], [],
            some ⟨[⟨1, "Boiled tilapia with cabbage", "Yam with turkey", "Tofu with lettuce",
              herbalSnacks⟩]⟩, none, []⟩]) := rfl

/-! ### C6 — the allergy keyword tokenizer and filter -/

theorem pySplit_ne_nil (p : Char → Bool) (l : List Char) : pySplit p l ≠ [] := by
  cases l with
  | nil => simp [pySplit]
  | cons c cs =>
    by_cases hp : p c
    · simp [pySplit, hp]
    · simp only [pySplit, hp, if_false]
      cases pySplit p cs <;> simp

theorem pySplit_dest (p : Char → Bool) (l : List Char) : ∃ h t, pySplit p l = h :: t := by
  cases hl : pySplit p l with
  | nil => exact absurd hl (pySplit_ne_nil p l)
  | cons h t => exact ⟨h, t, rfl⟩

theorem pySplit_cons_pos (p : Char → Bool) (c : Char) (cs : List Char) (hp : p c) :
    pySplit p (c :: cs) = [] :: pySplit p cs := by
  simp [pySplit, hp]

theorem pySplit_cons_neg (p : Char → Bool) (c : Char) (cs : List Char) (h : List Char)
    (t : List (List Char)) (hp : ¬ p c = true) (heq : pySplit p cs = h :: t) :
    pySplit p (c :: cs) = (c :: h) :: t := by
  simp [pySplit, hp, heq]

theorem tokensF_nil (p : Char → Bool) : tokensF p [] = [] := rfl

theorem tokensF_cons_pos (p : Char → Bool) (c : Char) (cs : List Char) (hp : p c) :
    tokensF p (c :: cs) = tokensF p cs := by
  simp [tokensF, pySplit_cons_pos p c cs hp]

/-- Splitting on `p ∨ q` in one pass is the same as splitting on `p` first
and then splitting every segment on `q`, once empty segments are dropped; the
auxiliary head equation carries the induction. -/
theorem tokensF_or_flatMap (p q : Char → Bool) (l : List Char) :
    tokensF (fun c => p c || q c) l = (pySplit p l).flatMap (tokensF q)
    ∧ (pySplit (fun c => p c || q c) l).headI
        = (pySplit q ((pySplit p l).headI)).headI := by
  induction l with
  | nil => exact ⟨rfl, rfl⟩
  | cons c l ih =>
    obtain ⟨ih1, ih2⟩ := ih
    obtain ⟨h, t, hpt⟩ := pySplit_dest p l
    obtain ⟨H, T, hct⟩ := pySplit_dest (fun c => p c || q c) l
    obtain ⟨h2, t2, hqt⟩ := pySplit_dest q h
    have hH : H = h2 := by
      rw [hct, hpt] at ih2
      simp only [List.headI] at ih2
      rw [hqt] at ih2
      simpa using ih2
    by_cases hp : p c
    · have hcomb : (p c || q c) = true := by simp [hp]
      constructor
      · rw [tokensF_cons_pos _ c l hcomb, ih1, pySplit_cons_pos p c l hp,
          List.flatMap_cons, tokensF_nil, List.nil_append]
      · rw [pySplit_cons_pos _ c l hcomb, pySplit_cons_pos p c l hp]
        simp [List.headI, pySplit]
    · by_cases hq : q c
      · have hcomb : (p c || q c) = true := by simp [hq]
        constructor
        · rw [tokensF_cons_pos _ c l hcomb, ih1, hpt,
            pySplit_cons_neg p c l h t hp hpt, List.flatMap_cons, List.flatMap_cons,
            tokensF_cons_pos q c h hq]
        · simp only [pySplit_cons_pos (fun c => p c || q c) c l hcomb,
            pySplit_cons_neg p c l h t hp hpt, List.headI, pySplit_cons_pos q c h hq]
      · have hcomb : ¬ (p c || q c) = true := by simp [hp, hq]
        have lc : pySplit (fun c => p c || q c) (c :: l) = (c :: H) :: T :=
          pySplit_cons_neg _ c l H T hcomb hct
        have lp : pySplit p (c :: l) = (c :: h) :: t :=
          pySplit_cons_neg p c l h t hp hpt
        have lq : pySplit q (c :: h) = (c :: h2) :: t2 :=
          pySplit_cons_neg q c h h2 t2 hq hqt
        constructor
        · have lhs1 : tokensF (fun c => p c || q c) (c :: l)
              = (c :: H) :: List.filter (fun x => !x.isEmpty) T := by
            rw [tokensF, lc]
            simp [List.filter]
          have rhs1 : (pySplit p (c :: l)).flatMap (tokensF q)
              = (c :: h2) :: (List.filter (fun x => !x.isEmpty) t2
                  ++ t.flatMap (tokensF q)) := by
            rw [lp, List.flatMap_cons, tokensF, lq]
            simp [List.filter]
          rw [lhs1, rhs1, hH]
          have key : List.filter (fun x => !x.isEmpty) T
              = List.filter (fun x => !x.isEmpty) t2 ++ t.flatMap (tokensF q) := by
            have e1 : tokensF (fun c => p c || q c) l
                = List.filter (fun x => !x.isEmpty) (H :: T) := by rw [tokensF, hct]
            have e2 : (pySplit p l).flatMap (tokensF q)
                = List.filter (fun x => !x.isEmpty) (h2 :: t2) ++ t.flatMap (tokensF q) := by
              rw [hpt, List.flatMap_cons, tokensF, hqt]
            rw [e1, e2] at ih1
            by_cases hemp : H.isEmpty
            · have hh2 : h2.isEmpty := hH ▸ hemp
              simpa [List.filter, hemp, hh2] using ih1
            · have hh2 : ¬ h2.isEmpty := hH ▸ hemp
              rw [List.filter_cons, List.filter_cons] at ih1
              simp only [hemp, hh2, Bool.not_false] at ih1
              rw [hH] at ih1
              injection ih1 with heq1 heq2
          rw [key]
        · rw [lc, lp]
          simp only [List.headI]
          rw [lq]
          simp [List.headI, hH]

theorem pySplit_map_congr (p p' : Char → Bool) (f : Char → Char) (l : List Char)
    (hf : ∀ c, p' (f c) = p c) (hid : ∀ c, p c = false → f c = c) :
    pySplit p' (l.map f) = pySplit p l := by
  induction l with
  | nil => rfl
  | cons c l ih =>
    by_cases hc : p c
    · rw [List.map_cons, pySplit_cons_pos p' (f c) _ (by rw [hf]; exact hc),
        pySplit_cons_pos p c l hc, ih]
    · obtain ⟨h, t, hpt⟩ := pySplit_dest p l
      have hmap : pySplit p' (l.map f) = h :: t := ih.trans hpt
      rw [List.map_cons, pySplit_cons_neg p' (f c) _ h t (by simp [hf, hc]) hmap,
        pySplit_cons_neg p c l h t hc hpt, hid c (by simpa using hc)]

theorem pySplit_all_sep (p : Char → Bool) (s : List Char) (hs : ∀ c ∈ s, p c = true) :
    pySplit p s = List.replicate (s.length + 1) [] := by
  induction s with
  | nil => rfl
  | cons c s ih =>
    rw [pySplit_cons_pos p c s (hs c (List.mem_cons_self c s)),
      ih (fun d hd => hs d (List.mem_cons_of_mem c hd))]
    rfl

theorem pySplit_append_sep (p : Char → Bool) (l s : List Char) (hs : ∀ c ∈ s, p c = true) :
    pySplit p (l ++ s) = pySplit p l ++ List.replicate s.length [] := by
  induction l with
  | nil =>
    rw [List.nil_append, pySplit_all_sep p s hs]
    rfl
  | cons c l ih =>
    by_cases hc : p c
    · rw [List.cons_append, pySplit_cons_pos p c _ hc, pySplit_cons_pos p c l hc, ih,
        List.cons_append]
    · obtain ⟨h, t, hpt⟩ := pySplit_dest p l
      have happ : pySplit p (l ++ s) = h :: (t ++ List.replicate s.length []) := by
        rw [ih, hpt]
        rfl
      rw [List.cons_append, pySplit_cons_neg p c _ h _ hc happ,
        pySplit_cons_neg p c l h t hc hpt, List.cons_append]

theorem filter_replicate_nil (n : Nat) :
    (List.replicate n ([] : List Char)).filter (fun x => !x.isEmpty) = [] := by
  induction n with
  | zero => rfl
  | succ n ih => simp [List.replicate_succ, ih]

theorem tokensF_append_sep (p : Char → Bool) (l s : List Char) (hs : ∀ c ∈ s, p c = true) :
    tokensF p (l ++ s) = tokensF p l := by
  rw [tokensF, pySplit_append_sep p l s hs, List.filter_append, filter_replicate_nil,
    List.append_nil, tokensF]

theorem tokensF_dropWhile (p : Char → Bool) (l : List Char) :
    tokensF p (l.dropWhile p) = tokensF p l := by
  induction l with
  | nil => rfl
  | cons c l ih =>
    by_cases hc : p c
    · rw [List.dropWhile_cons]
      simp only [hc, if_true]
      rw [ih, tokensF_cons_pos p c l hc]
    · rw [List.dropWhile_cons]
      simp [hc]

theorem tokensF_trimChars (l : List Char) :
    tokensF Char.isWhitespace (trimChars l) = tokensF Char.isWhitespace l := by
  unfold trimChars
  have hdecomp : l.dropWhile Char.isWhitespace
      = ((l.dropWhile Char.isWhitespace).reverse.dropWhile Char.isWhitespace).reverse
        ++ ((l.dropWhile Char.isWhitespace).reverse.takeWhile Char.isWhitespace).reverse := by
    conv_lhs => rw [← List.reverse_reverse (l.dropWhile Char.isWhitespace),
      ← List.takeWhile_append_dropWhile
        (p := Char.isWhitespace) (l := (l.dropWhile Char.isWhitespace).reverse)]
    rw [List.reverse_append]
  have hsuffix : ∀ c ∈ ((l.dropWhile Char.isWhitespace).reverse.takeWhile
      Char.isWhitespace).reverse, Char.isWhitespace c = true := by
    intro c hc
    exact List.mem_takeWhile_imp (List.mem_reverse.mp hc)
  have h1 : tokensF Char.isWhitespace
      (((l.dropWhile Char.isWhitespace).reverse.dropWhile Char.isWhitespace).reverse)
      = tokensF Char.isWhitespace (l.dropWhile Char.isWhitespace) := by
    conv_rhs => rw [hdecomp]
    rw [tokensF_append_sep _ _ _ hsuffix]
  rw [h1, tokensF_dropWhile]

theorem tokensF_nil_of_trim_empty (l : List Char) (h : trimChars l = []) :
    tokensF Char.isWhitespace l = [] := by
  rw [← tokensF_trimChars l, h]
  rfl

theorem filter_flatMap_comm {α β : Type} (l : List α) (f : α → List β) (g : β → Bool) :
    (l.flatMap f).filter g = l.flatMap (fun x => (f x).filter g) := by
  induction l with
  | nil => rfl
  | cons x l ih => simp [List.flatMap_cons, List.filter_append, ih]

theorem replace4_eq_map (L : List Char) :
    replaceChar ';' ' ' (replaceChar '&' ' ' (replaceChar '|' ' ' (replaceChar '/' ' ' L)))
      = L.map sepToSpace := by
  unfold replaceChar
  rw [List.map_map, List.map_map, List.map_map]
  apply List.map_congr_left
  intro c _
  by_cases h1 : c = '/'
  · subst h1; rfl
  · by_cases h2 : c = '|'
    · subst h2; rfl
    · by_cases h3 : c = '&'
      · subst h3; rfl
      · by_cases h4 : c = ';'
        · subst h4; rfl
        · simp [Function.comp, sepToSpace, h1, h2, h3, h4]

theorem sepToSpace_class (c : Char) :
    ((sepToSpace c = ',') || (sepToSpace c).isWhitespace) = isSepChar c := by
  by_cases h1 : c = '/'
  · subst h1; rfl
  · by_cases h2 : c = '|'
    · subst h2; rfl
    · by_cases h3 : c = '&'
      · subst h3; rfl
      · by_cases h4 : c = ';'
        · subst h4; rfl
        · simp [sepToSpace, isSepChar, h1, h2, h3, h4]

theorem sepToSpace_id (c : Char) (h : isSepChar c = false) : sepToSpace c = c := by
  unfold isSepChar at h
  simp only [Bool.or_eq_false_iff, decide_eq_false_iff_not] at h
  simp [sepToSpace, h.1.1.1.1.2, h.1.1.1.2, h.1.1.2, h.1.2]

/-- The code's tokenizer (lowercase, replace `/ | & ;` with spaces, split on
commas, strip, split on whitespace, keep words of length ≥ 3) equals the
spec's one-pass tokenization on the separator class. -/
theorem allergy_keywords_eq_spec (a : Answers) :
    _allergy_keywords a = specAllergyKeywords a := by
  unfold _allergy_keywords specAllergyKeywords
  dsimp only
  rw [replace4_eq_map]
  have hbody : ∀ raw ∈ pySplit (fun c => c = ',') ((lowerChars (allergyText a)).map sepToSpace),
      (let token := trimChars raw
       if token.isEmpty then []
       else (tokensF Char.isWhitespace token).filter (fun w => 3 ≤ w.length))
      = (fun seg => (tokensF Char.isWhitespace seg).filter (fun w => 3 ≤ w.length)) raw := by
    intro raw _
    by_cases he : (trimChars raw).isEmpty
    · have hnil : trimChars raw = [] := by
        cases h : trimChars raw with
        | nil => rfl
        | cons x xs => rw [h] at he; simp at he
      simp only [he, if_true]
      rw [tokensF_nil_of_trim_empty raw hnil]
      rfl
    · simp only [he, if_false]
      rw [tokensF_trimChars raw]
      rfl
  rw [List.flatMap_congr hbody]
  rw [← filter_flatMap_comm]
  have hsplit := (tokensF_or_flatMap (fun c => c = ',') Char.isWhitespace
    ((lowerChars (allergyText a)).map sepToSpace)).1
  rw [← hsplit]
  have : tokensF (fun c => (c = ',') || c.isWhitespace)
      ((lowerChars (allergyText a)).map sepToSpace)
      = tokensF isSepChar (lowerChars (allergyText a)) := by
    unfold tokensF
    rw [pySplit_map_congr isSepChar (fun c => (c = ',') || c.isWhitespace) sepToSpace
      (lowerChars (allergyText a)) sepToSpace_class sepToSpace_id]
  rw [this]

theorem filter_allergies_removal (kws : List (List Char)) (pool : List Item) :
    _filter_allergies kws pool
      = pool.filter (fun it => !(kws.any (fun kw => containsSub kw (pyLower it.name).data))) := by
  unfold _filter_allergies
  by_cases h : kws.isEmpty
  · have hnil : kws = [] := by
      cases kws with
      | nil => rfl
      | cons x xs => simp at h
    subst hnil
    simp
  · simp [h]

/-- C6: the allergy keyword set of the stage-template builder is exactly the
lowercased length-≥3 tokens of the concatenated "allerg" answer values split
on comma, slash, pipe, ampersand, semicolon and whitespace; an item is
removed iff its lowercased name contains some keyword as a substring; in
particular the keyword "egg" excludes both "Grilled Eggs" and
"Roasted Eggplant-base" while "Grilled chicken" survives. -/
theorem allergy_filter_spec :
    (∀ a : Answers, _allergy_keywords a = specAllergyKeywords a)
    ∧ (∀ (kws : List (List Char)) (pool : List Item),
        _filter_allergies kws pool
          = pool.filter (fun it => !(kws.any (fun kw => containsSub kw (pyLower it.name).data))))
    ∧ _allergy_keywords [("Allergies (food or drug):", .str "egg")] = ["egg".data]
    ∧ _filter_allergies (_allergy_keywords [("Allergies (food or drug):", .str "egg")])
        [⟨some 1, "Grilled Eggs", ["protein"]⟩, ⟨some 2, "Roasted Eggplant-base", ["veg"]⟩,
         ⟨some 3, "Grilled chicken", ["protein"]⟩]
        = [⟨some 3, "Grilled chicken", ["protein"]⟩] :=
  ⟨allergy_keywords_eq_spec, filter_allergies_removal, by decide, by decide⟩

end HealthSurvey
